import Mathlib

/-!
Verification of the voice-recording backend (`backend/main.py`).

The route handlers of `main.py` are embedded shallowly:

* Machine state is a `DB` record holding the `audio-recordings` storage
  bucket (path ↦ content), the `recordings` table and the `user_profiles`
  table of the external table store.
* Collaborator outcomes (Supabase storage upload / table insert / delete /
  upsert / removal succeeding or raising) are failure-injection flags in
  `Env`, with an error-message string per fallible call, mirroring §6 of
  the design: all I/O either succeeds or raises an exception.
* Python exceptions are the `Exc` type.  FastAPI's `HTTPException`
  subclasses `Exception`, so the broad `except Exception` blocks in the
  handlers catch the `HTTPException`s raised earlier in the same `try`
  body; the embedding reproduces this by modelling each handler as an
  inner body returning `Except Exc α` plus an outer wrapper that maps any
  escaping exception to the handler's final `HTTPException`.
* `str(e)` on an exception follows Python/starlette: an `HTTPException`
  prints as `"{status_code}: {detail}"`, a `KeyError` as the repr of the
  missing key, and a generic collaborator error as its message.
* Timestamps (`datetime.utcnow()`) are modelled as `Nat`, passed in as a
  `now` parameter; fresh UUIDs are passed in as parameters.
-/

deriving instance DecidableEq for Except

namespace VoiceBackend

/-- Python `s.startswith(pre)`, character-structural so that concrete
executions evaluate. -/
def strStartsWith (s pre : String) : Bool :=
  pre.data.isPrefixOf s.data

/-- Splitting worker for `strSplitOn`: walks the character list with
enough fuel to consume it, emitting a piece whenever the separator
occurs at the current position. -/
def splitOnCharsFuel (sep : List Char) :
    Nat → List Char → List Char → List (List Char)
  | _, [], acc => [acc]
  | 0, l, acc => [acc ++ l]
  | fuel+1, c :: rest, acc =>
    if sep.isPrefixOf (c :: rest) then
      acc :: splitOnCharsFuel sep fuel ((c :: rest).drop sep.length) []
    else
      splitOnCharsFuel sep fuel rest (acc ++ [c])

/-- Python `s.split(sep)` for a nonempty separator. -/
def strSplitOn (s sep : String) : List String :=
  (splitOnCharsFuel sep.data s.data.length s.data []).map
    (fun cs => String.mk cs)

/-- Python exceptions that occur in `main.py`: FastAPI `HTTPException`s,
`KeyError` from a missing dict key, and exceptions raised by the Supabase
collaborators. -/
inductive Exc where
  | http (status : Nat) (detail : String)
  | keyError (key : String)
  | collab (msg : String)
deriving DecidableEq

/-- Python `str(e)`: starlette's `HTTPException.__str__` is
`f"{self.status_code}: {self.detail}"`; `str(KeyError(k))` is `repr(k)`;
a collaborator exception prints its message. -/
def excStr : Exc → String
  | .http s d => toString s ++ ": " ++ d
  | .keyError k => "'" ++ k ++ "'"
  | .collab m => m

/-- Optional name fields of Supabase `user_metadata`. -/
structure UserMeta where
  full_name : Option String
  name : Option String
deriving DecidableEq

/-- The caller identity produced by `get_current_user` (a dict with keys
`id`, `email` and, on the verified path, `user_metadata`). -/
structure Identity where
  id : String
  email : String
  user_metadata : Option UserMeta
deriving DecidableEq

/-- The hard-coded development/test fallback user returned by
`get_current_user` (no `user_metadata` key). -/
def testUser : Identity :=
  { id := "123e4567-e89b-12d3-a456-426614174000",
    email := "test@example.com",
    user_metadata := none }

/-- A row of the `recordings` table (`recording_data` in `main.py`). -/
structure Recording where
  id : String
  user_id : String
  title : String
  description : Option String
  script_text : String
  audio_url : String
  created_at : Nat
deriving DecidableEq

/-- A row of the `user_profiles` table.  `created_at`/`updated_at` are
`Option` because not every upsert payload carries them (a column absent
from the payload is left untouched by the upsert). -/
structure ProfileRow where
  id : String
  email : String
  full_name : String
  created_at : Option Nat
  updated_at : Option Nat
deriving DecidableEq

/-- The externally stored state: the `audio-recordings` storage bucket
(path ↦ content) and the two table-store tables. -/
structure DB where
  storage : List (String × String)
  recordings : List Recording
  profiles : List ProfileRow
deriving DecidableEq

/-- Failure injection for the collaborator calls, plus whether the
Supabase client initialised (`supabase` is not `None`). -/
structure Env where
  configured : Bool
  baseUrl : String
  storageUploadOk : Bool
  storageErr : String
  insertOk : Bool
  insertErr : String
  removeOk : Bool
  profileUpsertOk : Bool
  profileErr : String
  dbDeleteOk : Bool
  deleteErr : String
deriving DecidableEq

/-- Python `pat in s` for a nonempty pattern: `s.split(pat)` has more
than one piece exactly when `pat` occurs in `s`. -/
def containsSub (s pat : String) : Bool :=
  (strSplitOn s pat).length != 1

/-- Embedding of the storage call
`supabase.storage.from_("audio-recordings").get_public_url(path)`:
the public-object URL of the bucket under the project base URL. -/
def get_public_url (env : Env) (path : String) : String :=
  env.baseUrl ++ "/storage/v1/object/public/audio-recordings/" ++ path

/-- Embedding of `audio_file.filename.split(".")[-1] if "." in
audio_file.filename else "wav"`. -/
def fileExtension (filename : String) : String :=
  if containsSub filename "." then (strSplitOn filename ".").getLastD ""
  else "wav"

/-- Storage `upload`: add the object at `path`. -/
def storagePut (db : DB) (path content : String) : DB :=
  { db with storage := db.storage ++ [(path, content)] }

/-- Storage `remove([path])`: drop every object at `path`. -/
def storageRemove (db : DB) (path : String) : DB :=
  { db with storage := db.storage.filter (fun pc => pc.1 != path) }

/-- Merge an upsert payload into an existing row with the same primary
key: columns present in the payload overwrite, absent columns are kept. -/
def mergeProfile (old p : ProfileRow) : ProfileRow :=
  { id := p.id, email := p.email, full_name := p.full_name,
    created_at := p.created_at.orElse (fun _ => old.created_at),
    updated_at := p.updated_at.orElse (fun _ => old.updated_at) }

/-- Embedding of `supabase.table("user_profiles").upsert(p)`: update the rows whose
primary key matches the payload, else insert the payload as a new row. -/
def upsertProfile (ps : List ProfileRow) (p : ProfileRow) : List ProfileRow :=
  if ps.any (fun r => r.id == p.id) then
    ps.map (fun r => if r.id == p.id then mergeProfile r p else r)
  else ps ++ [p]

/-- Embedding of `supabase.table("user_profiles").select("*").eq("id", uid)` projected
to its first row. -/
def findProfile (db : DB) (uid : String) : Option ProfileRow :=
  db.profiles.find? (fun r => r.id == uid)

/-- Outcome of `supabase.auth.get_user(token)`: a user record, a response
whose `.user` is `None`, or a raised exception (invalid/expired token,
provider unreachable). -/
inductive AuthOutcome where
  | ok (u : Identity)
  | noUser
  | err (msg : String)
deriving DecidableEq

/-- Body of `get_current_user` up to the outer `except Exception`: the
inner `try` around token verification catches any exception — including
the `HTTPException(401)` raised when `.user` is `None` — and returns the
test user. -/
def get_current_user_body (configured : Bool) (outcome : AuthOutcome)
    (cred : Option String) : Except Exc Identity :=
  match cred with
  | none => .ok testUser
  | some _ =>
    if configured then
      match outcome with
      | .ok u => .ok u
      | .noUser => .ok testUser
      | .err _ => .ok testUser
    else
      .error (Exc.http 500 "Supabase not configured")

/-- Handler `get_current_user`: the outer `except Exception` catches everything
that escapes the body (here the "Supabase not configured"
`HTTPException`) and falls back to the test user, so the function always
returns an identity. -/
def get_current_user (configured : Bool) (outcome : AuthOutcome)
    (cred : Option String) : Identity :=
  match get_current_user_body configured outcome cred with
  | .ok u => u
  | .error _ => testUser

/-- The multipart form of `POST /recordings/upload`. -/
structure UploadReq where
  title : String
  description : Option String
  script_text : String
  filename : String
  content_type : String
  content : String
deriving DecidableEq

/-- Success payload of the upload handler. -/
structure UploadOk where
  recording_id : String
  audio_url : String
deriving DecidableEq

/-- The storage object path `f"{current_user['id']}/{filename}"` chosen
by the upload handler. -/
def uploadPath (user : Identity) (req : UploadReq) (u1 : String) : String :=
  user.id ++ "/" ++ (u1 ++ "." ++ fileExtension req.filename)

/-- The `recording_data` row built by the upload handler. -/
def uploadRow (env : Env) (user : Identity) (req : UploadReq)
    (u1 u2 : String) (now : Nat) : Recording :=
  { id := u2, user_id := user.id, title := req.title,
    description := req.description, script_text := req.script_text,
    audio_url := get_public_url env (uploadPath user req u1),
    created_at := now }

/-- Body of `upload_recording` inside the outer `try`: content-type
check, storage upload (its own `try` maps failure to a 500
`HTTPException`), best-effort profile upsert (failure only logged),
recording insert whose failure triggers the best-effort storage cleanup
(bare `except: pass`) before a 500 `HTTPException`. -/
def upload_recording_body (env : Env) (user : Identity) (req : UploadReq)
    (u1 u2 : String) (now : Nat) (db : DB) : Except Exc UploadOk × DB :=
  if !env.configured then
    (.error (Exc.http 500 "Supabase not configured"), db)
  else if !strStartsWith req.content_type "audio/" then
    (.error (Exc.http 400 "File must be an audio file"), db)
  else
    let storage_path := uploadPath user req u1
    if !env.storageUploadOk then
      (.error (Exc.http 500 ("Storage upload failed: " ++ env.storageErr)), db)
    else
      let db1 := storagePut db storage_path req.content
      let audio_url := get_public_url env storage_path
      let recording_data := uploadRow env user req u1 u2 now
      let db2 :=
        if env.profileUpsertOk then
          { db1 with profiles := (upsertProfile db1.profiles
              { id := user.id, email := user.email, full_name := "Test User",
                created_at := none, updated_at := none }) }
        else db1
      if !env.insertOk then
        let db3 := if env.removeOk then storageRemove db2 storage_path else db2
        (.error (Exc.http 500 ("Database insert failed: " ++ env.insertErr)), db3)
      else
        (.ok { recording_id := u2, audio_url := audio_url },
         { db2 with recordings := db2.recordings ++ [recording_data] })

/-- Handler `upload_recording`: the outer `except Exception as e` catches every
exception the body raised — the 400 for a bad content type included —
and re-raises `HTTPException(500, f"Upload failed: {str(e)}")`. -/
def upload_recording (env : Env) (user : Identity) (req : UploadReq)
    (u1 u2 : String) (now : Nat) (db : DB) : Except Exc UploadOk × DB :=
  match upload_recording_body env user req u1 u2 now db with
  | (.ok v, db') => (.ok v, db')
  | (.error e, db') =>
    (.error (Exc.http 500 ("Upload failed: " ++ excStr e)), db')

/-- Embedding of `supabase.table("recordings").select("*").eq("user_id", user_id)`,
with the table-store contract's optional `created_at`-descending order
(`main.py` itself never requests an ordering). -/
def selectRecordingsByUser (db : DB) (user_id : String) (orderDesc : Bool) :
    List Recording :=
  let rows := db.recordings.filter (fun r => r.user_id == user_id)
  if orderDesc then
    rows.mergeSort (fun a b => decide (b.created_at ≤ a.created_at))
  else rows

/-- Body of `get_user_recordings`: a straight filtered table lookup; the
`current_user` dependency is resolved but never consulted. -/
def get_user_recordings_body (env : Env) (_user : Identity) (user_id : String)
    (db : DB) : Except Exc (List Recording) :=
  if !env.configured then .error (Exc.http 500 "Supabase not configured")
  else .ok (selectRecordingsByUser db user_id false)

/-- Handler `get_user_recordings`: outer `except Exception as e` re-raises
`HTTPException(500, str(e))`. -/
def get_user_recordings (env : Env) (user : Identity) (user_id : String)
    (db : DB) : Except Exc (List Recording) :=
  match get_user_recordings_body env user user_id db with
  | .ok v => .ok v
  | .error e => .error (Exc.http 500 (excStr e))

/-- Body of `delete_recording`: lookup filtered by `(id, user_id)`, 404
when empty; if the stored `audio_url` contains `"audio-recordings"`,
best-effort storage removal of `{caller}/{last URL segment}` (failure
only logged); then table delete by the same `(id, user_id)` predicate. -/
def delete_recording_body (env : Env) (user : Identity)
    (recording_id : String) (db : DB) : Except Exc String × DB :=
  if !env.configured then
    (.error (Exc.http 500 "Supabase not configured"), db)
  else
    match db.recordings.filter
        (fun r => r.id == recording_id && r.user_id == user.id) with
    | [] => (.error (Exc.http 404 "Recording not found"), db)
    | recording :: _ =>
      let audio_url := recording.audio_url
      let db1 :=
        if containsSub audio_url "audio-recordings" then
          let filename := (strSplitOn audio_url "/").getLastD ""
          let storage_path := user.id ++ "/" ++ filename
          if env.removeOk then storageRemove db storage_path else db
        else db
      if !env.dbDeleteOk then (.error (Exc.collab env.deleteErr), db1)
      else
        (.ok "Recording deleted successfully",
         { db1 with recordings := (db1.recordings.filter
             (fun r => !(r.id == recording_id && r.user_id == user.id))) })

/-- Handler `delete_recording`: the outer `except Exception as e` catches every
exception — the 404 `HTTPException` included — and re-raises
`HTTPException(500, str(e))`. -/
def delete_recording (env : Env) (user : Identity) (recording_id : String)
    (db : DB) : Except Exc String × DB :=
  match delete_recording_body env user recording_id db with
  | (.ok v, db') => (.ok v, db')
  | (.error e, db') => (.error (Exc.http 500 (excStr e)), db')

/-- Python truthiness of `d.get(k)` for an optional string field: present
and nonempty. -/
def truthy : Option String → Bool
  | some s => s != ""
  | none => false

/-- Field resolution for `full_name` in `sync_user_profile`: prefer
`user_metadata["full_name"]`, else `user_metadata["name"]`, else the
literal `"Test User"`. -/
def resolveFullName (user : Identity) : String :=
  match user.user_metadata with
  | none => "Test User"
  | some md =>
    if truthy md.full_name then md.full_name.getD "Test User"
    else if truthy md.name then md.name.getD "Test User"
    else "Test User"

/-- Body of `sync_user_profile`: upsert of `{id, email, full_name,
updated_at}` — the payload carries no `created_at`. -/
def sync_user_profile_body (env : Env) (user : Identity) (now : Nat)
    (db : DB) : Except Exc (String × String) × DB :=
  if !env.configured then
    (.error (Exc.http 500 "Supabase not configured"), db)
  else
    let profile_data : ProfileRow :=
      { id := user.id, email := user.email,
        full_name := resolveFullName user,
        created_at := none, updated_at := some now }
    if !env.profileUpsertOk then (.error (Exc.collab env.profileErr), db)
    else (.ok (user.id, user.email),
          { db with profiles := upsertProfile db.profiles profile_data })

/-- Handler `sync_user_profile`: outer `except Exception as e` re-raises
`HTTPException(500, f"Failed to sync user profile: {str(e)}")`. -/
def sync_user_profile (env : Env) (user : Identity) (now : Nat) (db : DB) :
    Except Exc (String × String) × DB :=
  match sync_user_profile_body env user now db with
  | (.ok v, db') => (.ok v, db')
  | (.error e, db') =>
    (.error (Exc.http 500 ("Failed to sync user profile: " ++ excStr e)), db')

/-- The JSON body of the unauthenticated `POST /user/profile/create`: an
arbitrary dict, of which the handler reads the keys `user_id`, `email`
and `full_name`. -/
structure CreateProfileReq where
  user_id : Option String
  email : Option String
  full_name : Option String
deriving DecidableEq

/-- Python `d[key]`: raises `KeyError(key)` when the key is absent. -/
def dictGet (v : Option String) (key : String) : Except Exc String :=
  match v with
  | some s => .ok s
  | none => .error (Exc.keyError key)

/-- Body of `create_user_profile`: builds `{id, email, full_name,
created_at: now, updated_at: now}` from the request dict — a missing key
raises `KeyError` before anything is written — then upserts it.  Note
the payload carries `created_at` on every call, first or repeat. -/
def create_user_profile_body (env : Env) (req : CreateProfileReq) (now : Nat)
    (db : DB) : Except Exc (Option ProfileRow) × DB :=
  if !env.configured then
    (.error (Exc.http 500 "Supabase not configured"), db)
  else
    match dictGet req.user_id "user_id" with
    | .error e => (.error e, db)
    | .ok uid =>
      match dictGet req.email "email" with
      | .error e => (.error e, db)
      | .ok em =>
        match dictGet req.full_name "full_name" with
        | .error e => (.error e, db)
        | .ok fn =>
          let user_profile_data : ProfileRow :=
            { id := uid, email := em, full_name := fn,
              created_at := some now, updated_at := some now }
          if !env.profileUpsertOk then
            (.error (Exc.collab env.profileErr), db)
          else
            let ps := upsertProfile db.profiles user_profile_data
            (.ok (ps.find? (fun r => r.id == uid)),
             { db with profiles := ps })

/-- Handler `create_user_profile`: outer `except Exception as e` re-raises
`HTTPException(500, f"Failed to create profile: {str(e)}")`. -/
def create_user_profile (env : Env) (req : CreateProfileReq) (now : Nat)
    (db : DB) : Except Exc (Option ProfileRow) × DB :=
  match create_user_profile_body env req now db with
  | (.ok v, db') => (.ok v, db')
  | (.error e, db') =>
    (.error (Exc.http 500 ("Failed to create profile: " ++ excStr e)), db')

/-- Modelled from the spec: the HTTP surface of §6 lists
`GET /recordings/{recording_id}` but `main.py` contains no such handler;
§4.4 specifies `getOne(recordingId, callerId)`: look up by id; if
absent, `NotFound` (404); if present and `record.user_id != callerId`,
`Denied` (403); else return the record. -/
inductive GetOneResult where
  | found (r : Recording)
  | notFound
  | denied
deriving DecidableEq

/-- Modelled from the spec: the `getOne` operation of §4.4 (no handler
for it exists in `src/backend/main.py`). -/
def getOne (db : DB) (recordingId callerId : String) : GetOneResult :=
  match db.recordings.find? (fun r => r.id == recordingId) with
  | none => .notFound
  | some r => if r.user_id == callerId then .found r else .denied

/-! ### Concrete fixtures for witnesses and counterexamples -/

/-- An environment in which every collaborator call succeeds. -/
def envAllOk : Env :=
  { configured := true, baseUrl := "https://proj.supabase.co",
    storageUploadOk := true, storageErr := "storage down",
    insertOk := true, insertErr := "insert down",
    removeOk := true, profileUpsertOk := true, profileErr := "profiles down",
    dbDeleteOk := true, deleteErr := "delete down" }

/-- The empty external state. -/
def dbEmpty : DB := { storage := [], recordings := [], profiles := [] }

/-- An upload request whose content type is not `audio/*`. -/
def reqPng : UploadReq :=
  { title := "t", description := none, script_text := "s",
    filename := "pic.png", content_type := "image/png", content := "bytes" }

/-- A valid audio upload request. -/
def reqWav : UploadReq :=
  { title := "t", description := none, script_text := "s",
    filename := "take.wav", content_type := "audio/wav", content := "bytes" }

/-- A recording owned by `alice` (not the test user). -/
def aliceRec : Recording :=
  { id := "r1", user_id := "alice", title := "t", description := none,
    script_text := "s",
    audio_url := "https://proj.supabase.co/storage/v1/object/public/audio-recordings/alice/f.wav",
    created_at := 5 }

/-- State holding only `alice`'s recording and its storage object. -/
def dbAlice : DB :=
  { storage := [("alice/f.wav", "c")], recordings := [aliceRec], profiles := [] }

/-- A recording owned by the test user whose `audio_url` does not contain
the substring `"audio-recordings"`. -/
def legacyRec : Recording :=
  { id := "r2", user_id := "123e4567-e89b-12d3-a456-426614174000",
    title := "t", description := none, script_text := "s",
    audio_url := "https://legacy.example.com/files/old.wav", created_at := 7 }

/-- State holding only the legacy recording. -/
def dbLegacy : DB :=
  { storage := [("somewhere/old.wav", "c")], recordings := [legacyRec],
    profiles := [] }

/-- A well-formed create-profile request body. -/
def reqProfile : CreateProfileReq :=
  { user_id := some "u1", email := some "a@b.c", full_name := some "Alice" }

/-- The environment in which only the `recordings` insert fails. -/
def envInsertFail : Env := { envAllOk with insertOk := false }

/-- An existing profile row for the test user with old timestamps. -/
def profRow0 : ProfileRow :=
  { id := "123e4567-e89b-12d3-a456-426614174000", email := "old@x",
    full_name := "Old", created_at := some 1, updated_at := some 2 }

/-- State with the test user's existing profile row. -/
def dbProf : DB := { storage := [], recordings := [], profiles := [profRow0] }

/-- The §4.3 invariant for one row: its `audio_url` is the public URL of
an object present in the bucket. -/
def refOk (env : Env) (db : DB) (r : Recording) : Prop :=
  ∃ pc, pc ∈ db.storage ∧ r.audio_url = get_public_url env pc.1

/-! ### Claims -/

/-- Every element surviving `List.filter p` satisfies `p`. -/
theorem all_filter_self {α : Type} (l : List α) (p : α → Bool) :
    (l.filter p).all p = true := by
  induction l with
  | nil => rfl
  | cons x xs ih =>
    by_cases h : p x = true
    · simp [List.filter_cons, h, ih]
    · simp [List.filter_cons, h, ih]

/-- C4: an upload whose `contentType` does not begin with `"audio/"`
leaves storage and tables untouched, but the handler's outer
`except Exception` catches the `HTTPException(400)` raised by the
validation and re-raises it as a 500, so the delivered status is 500,
not the claimed 400. -/
theorem upload_bad_content_type_delivers_500 :
    (upload_recording envAllOk testUser reqPng "u1" "u2" 0 dbEmpty).1
      = Except.error (Exc.http 500 "Upload failed: 400: File must be an audio file")
    ∧ (upload_recording envAllOk testUser reqPng "u1" "u2" 0 dbEmpty).2 = dbEmpty := by
  constructor <;> decide

/-- C3: deleting a non-existent recording, and deleting a recording owned
by another user, both hit the `HTTPException(404, "Recording not found")`
branch without touching the state and without returning record data — but
the handler's outer `except Exception` re-raises it as a 500, so the
delivered status is 500, not the claimed 404. -/
theorem delete_not_found_delivers_500 :
    (delete_recording envAllOk testUser "missing" dbEmpty).1
      = Except.error (Exc.http 500 "404: Recording not found")
    ∧ (delete_recording envAllOk testUser "r1" dbAlice).1
      = Except.error (Exc.http 500 "404: Recording not found")
    ∧ (delete_recording envAllOk testUser "r1" dbAlice).2 = dbAlice := by
  refine ⟨by decide, by decide, by decide⟩

/-- C5: the spec-modelled `getOne` returns `notFound` when no recording
with the id exists, `denied` when it exists with a different owner,
the record itself only for the owner, and never hands the record to a
non-owner. -/
theorem getOne_access_control (db : DB) (rid caller : String) :
    (db.recordings.find? (fun x => x.id == rid) = none →
      getOne db rid caller = GetOneResult.notFound)
    ∧ (∀ r, db.recordings.find? (fun x => x.id == rid) = some r →
        r.user_id ≠ caller → getOne db rid caller = GetOneResult.denied)
    ∧ (∀ r, db.recordings.find? (fun x => x.id == rid) = some r →
        r.user_id = caller → getOne db rid caller = GetOneResult.found r)
    ∧ (∀ r, getOne db rid caller = GetOneResult.found r →
        r.user_id = caller) := by
  refine ⟨?_, ?_, ?_, ?_⟩
  · intro h
    unfold getOne
    rw [h]
  · intro r hr hne
    unfold getOne
    rw [hr]
    have hb : (r.user_id == caller) = false := beq_eq_false_iff_ne.mpr hne
    simp [hb]
  · intro r hr heq
    unfold getOne
    rw [hr]
    have hb : (r.user_id == caller) = true := beq_iff_eq.mpr heq
    simp [hb]
  · intro r hfound
    unfold getOne at hfound
    cases h : db.recordings.find? (fun x => x.id == rid) with
    | none => rw [h] at hfound; cases hfound
    | some r0 =>
      rw [h] at hfound
      cases hb : r0.user_id == caller with
      | true =>
        simp [hb] at hfound
        rw [← hfound]
        exact beq_iff_eq.mp hb
      | false => simp [hb] at hfound

/-- C5 witness: a non-owner caller is denied on a concrete state. -/
theorem getOne_access_control_witness :
    getOne dbAlice "r1" "123e4567-e89b-12d3-a456-426614174000"
      = GetOneResult.denied :=
  (getOne_access_control dbAlice "r1" "123e4567-e89b-12d3-a456-426614174000").2.1
    aliceRec (by rfl) (by decide)

/-- C6: `get_current_user` never hard-rejects: with no credential it
returns the fallback test user; when the client is unconfigured, the
token verification raises, or the provider returns no user, it also
returns the fallback; in every case the result is the fallback or the
verified identity. -/
theorem auth_never_rejects (configured : Bool) (outcome : AuthOutcome)
    (cred : Option String) :
    (cred = none → get_current_user configured outcome cred = testUser)
    ∧ (configured = false → get_current_user configured outcome cred = testUser)
    ∧ (∀ m, outcome = AuthOutcome.err m →
        get_current_user configured outcome cred = testUser)
    ∧ (outcome = AuthOutcome.noUser →
        get_current_user configured outcome cred = testUser)
    ∧ (get_current_user configured outcome cred = testUser
        ∨ ∃ u, outcome = AuthOutcome.ok u
            ∧ get_current_user configured outcome cred = u) := by
  unfold get_current_user get_current_user_body
  cases cred <;> cases configured <;> cases outcome <;> simp

/-- C6 witness: a presented credential that fails verification yields the
fallback identity. -/
theorem auth_never_rejects_witness :
    get_current_user true (AuthOutcome.err "expired token") (some "tok")
      = testUser :=
  (auth_never_rejects true (AuthOutcome.err "expired token")
    (some "tok")).2.2.1 "expired token" rfl

/-- C10: a create-profile request missing any of the keys `user_id`,
`email`, `full_name` raises `KeyError` before the upsert, which the
generic handler maps to a 500 (a 5xx, not a 400), and the state is
unchanged. -/
theorem create_profile_missing_key_gives_500
    (env : Env) (req : CreateProfileReq) (now : Nat) (db : DB)
    (hconf : env.configured = true)
    (hmiss : req.user_id = none ∨ req.email = none ∨ req.full_name = none) :
    (∃ d, (create_user_profile env req now db).1
        = Except.error (Exc.http 500 d))
    ∧ (create_user_profile env req now db).2 = db := by
  unfold create_user_profile create_user_profile_body dictGet
  cases hu : req.user_id with
  | none => simp [hconf, excStr]
  | some uid =>
    cases he : req.email with
    | none => simp [hconf, excStr]
    | some em =>
      cases hf : req.full_name with
      | none => simp [hconf, excStr]
      | some fn => simp_all

/-- C10 witness: a body lacking `email` on a concrete state. -/
theorem create_profile_missing_key_gives_500_witness :
    (∃ d, (create_user_profile envAllOk
        { user_id := some "u1", email := none, full_name := some "n" } 0
        dbEmpty).1 = Except.error (Exc.http 500 d))
    ∧ (create_user_profile envAllOk
        { user_id := some "u1", email := none, full_name := some "n" } 0
        dbEmpty).2 = dbEmpty :=
  create_profile_missing_key_gives_500 envAllOk
    { user_id := some "u1", email := none, full_name := some "n" } 0 dbEmpty
    rfl (Or.inr (Or.inl rfl))

/-- C7: the list endpoint ignores the caller entirely (same result for
any two caller identities), returns exactly the rows whose `user_id`
equals the requested id, and — when the table-store contract's ordering
is requested — those rows sorted by `created_at` descending. -/
theorem list_recordings_no_ownership_check
    (env : Env) (u1 u2 : Identity) (uid : String) (db : DB)
    (hconf : env.configured = true) :
    get_user_recordings env u1 uid db = get_user_recordings env u2 uid db
    ∧ get_user_recordings env u1 uid db
        = Except.ok (db.recordings.filter (fun r => r.user_id == uid))
    ∧ (selectRecordingsByUser db uid true).Pairwise
        (fun a b => b.created_at ≤ a.created_at)
    ∧ (selectRecordingsByUser db uid true).Perm
        (db.recordings.filter (fun r => r.user_id == uid)) := by
  refine ⟨rfl, ?_, ?_, ?_⟩
  · simp [get_user_recordings, get_user_recordings_body,
      selectRecordingsByUser, hconf]
  · have h := @List.sorted_mergeSort Recording
      (fun a b => decide (b.created_at ≤ a.created_at))
      (fun a b c h1 h2 => by simp at h1 h2 ⊢; omega)
      (fun a b => by
        simp [Nat.le_total b.created_at a.created_at])
      (db.recordings.filter (fun r => r.user_id == uid))
    simpa [selectRecordingsByUser] using
      List.Pairwise.imp (fun hb => of_decide_eq_true hb) h
  · simpa [selectRecordingsByUser] using
      List.mergeSort_perm (db.recordings.filter (fun r => r.user_id == uid))
        (fun a b => decide (b.created_at ≤ a.created_at))

/-- C7 witness: on a concrete state, listing for `alice` from the test
user's session returns exactly `alice`'s rows. -/
theorem list_recordings_no_ownership_check_witness :
    get_user_recordings envAllOk testUser "alice" dbAlice
      = Except.ok (dbAlice.recordings.filter (fun r => r.user_id == "alice")) :=
  (list_recordings_no_ownership_check envAllOk testUser
    { id := "bob", email := "b@b", user_metadata := none } "alice" dbAlice
    rfl).2.1

/-- C9: deleting an owned recording whose stored `audio_url` does not
contain `"audio-recordings"` skips the storage-removal branch entirely
(the bucket is untouched, whatever the removal outcome flag), still
deletes the metadata row and reports success. -/
theorem delete_unrecognized_url_skips_storage
    (env : Env) (user : Identity) (rid : String) (db : DB)
    (r : Recording) (rest : List Recording)
    (hconf : env.configured = true)
    (hdel : env.dbDeleteOk = true)
    (hrows : db.recordings.filter
        (fun x => x.id == rid && x.user_id == user.id) = r :: rest)
    (hurl : containsSub r.audio_url "audio-recordings" = false) :
    (delete_recording env user rid db).1
      = Except.ok "Recording deleted successfully"
    ∧ (delete_recording env user rid db).2.storage = db.storage
    ∧ (delete_recording env user rid db).2.recordings
        = db.recordings.filter
            (fun x => !(x.id == rid && x.user_id == user.id)) := by
  unfold delete_recording delete_recording_body
  rw [hconf, hrows]
  simp [hurl, hdel]

/-- C9 witness: the legacy-URL recording is deleted, the bucket object
survives, and the call reports success. -/
theorem delete_unrecognized_url_skips_storage_witness :
    (delete_recording envAllOk testUser "r2" dbLegacy).1
      = Except.ok "Recording deleted successfully"
    ∧ (delete_recording envAllOk testUser "r2" dbLegacy).2.storage
        = dbLegacy.storage
    ∧ (delete_recording envAllOk testUser "r2" dbLegacy).2.recordings
        = dbLegacy.recordings.filter
            (fun x => !(x.id == "r2" && x.user_id == testUser.id)) :=
  delete_unrecognized_url_skips_storage envAllOk testUser "r2" dbLegacy
    legacyRec [] rfl rfl (by decide) (by decide)

/-- C1: when the storage write succeeded and the metadata insert fails,
the workflow compensates by removing the object (when the removal
succeeds the path is gone; a removal failure is swallowed and the
delivered error is the same either way), no row is inserted, and the
outcome is the 500 carrying the original insert error — never success. -/
theorem upload_insert_failure_compensates
    (env : Env) (user : Identity) (req : UploadReq) (u1 u2 : String)
    (now : Nat) (db : DB)
    (hconf : env.configured = true)
    (hct : strStartsWith req.content_type "audio/" = true)
    (hst : env.storageUploadOk = true)
    (hins : env.insertOk = false) :
    (upload_recording env user req u1 u2 now db).1
      = Except.error (Exc.http 500 ("Upload failed: "
          ++ excStr (Exc.http 500
              ("Database insert failed: " ++ env.insertErr))))
    ∧ (env.removeOk = true →
        ((upload_recording env user req u1 u2 now db).2.storage.all
          (fun pc => pc.1 != uploadPath user req u1)) = true)
    ∧ (upload_recording env user req u1 u2 now db).2.recordings
        = db.recordings := by
  cases hp : env.profileUpsertOk <;> cases hr : env.removeOk <;>
    simp [upload_recording, upload_recording_body, hconf, hct, hst, hins,
      hp, hr, storagePut, storageRemove, all_filter_self]

/-- C1 witness: concrete run with a failing insert; the object is gone,
no row exists, and the delivered error is the wrapped insert failure. -/
theorem upload_insert_failure_compensates_witness :
    (upload_recording envInsertFail testUser reqWav "u1" "u2" 3 dbEmpty).1
      = Except.error (Exc.http 500 ("Upload failed: "
          ++ excStr (Exc.http 500
              ("Database insert failed: " ++ envInsertFail.insertErr))))
    ∧ (envInsertFail.removeOk = true →
        ((upload_recording envInsertFail testUser reqWav "u1" "u2" 3
            dbEmpty).2.storage.all
          (fun pc => pc.1 != uploadPath testUser reqWav "u1")) = true)
    ∧ (upload_recording envInsertFail testUser reqWav "u1" "u2" 3
        dbEmpty).2.recordings = dbEmpty.recordings :=
  upload_insert_failure_compensates envInsertFail testUser reqWav "u1" "u2" 3
    dbEmpty rfl (by decide) rfl rfl

/-- C2: in any upload execution, a row is inserted only on the
all-successful path (where its object is present at the end), and the
row→object invariant `refOk` is preserved, assuming the generated
object path is fresh. -/
theorem upload_preserves_row_object_invariant
    (env : Env) (user : Identity) (req : UploadReq) (u1 u2 : String)
    (now : Nat) (db : DB)
    (hfresh : ∀ c, (uploadPath user req u1, c) ∉ db.storage)
    (hinv : ∀ r ∈ db.recordings, refOk env db r) :
    ((upload_recording env user req u1 u2 now db).2.recordings
        = db.recordings
      ∨ (env.storageUploadOk = true ∧ env.insertOk = true
         ∧ (upload_recording env user req u1 u2 now db).2.recordings
             = db.recordings ++ [uploadRow env user req u1 u2 now]
         ∧ (uploadPath user req u1, req.content)
             ∈ (upload_recording env user req u1 u2 now db).2.storage))
    ∧ ∀ r ∈ (upload_recording env user req u1 u2 now db).2.recordings,
        refOk env (upload_recording env user req u1 u2 now db).2 r := by
  cases hc : env.configured with
  | false =>
    have hdb : (upload_recording env user req u1 u2 now db).2 = db := by
      simp [upload_recording, upload_recording_body, hc]
    rw [hdb]
    exact ⟨Or.inl rfl, hinv⟩
  | true =>
  cases hct : strStartsWith req.content_type "audio/" with
  | false =>
    have hdb : (upload_recording env user req u1 u2 now db).2 = db := by
      simp [upload_recording, upload_recording_body, hc, hct]
    rw [hdb]
    exact ⟨Or.inl rfl, hinv⟩
  | true =>
  cases hst : env.storageUploadOk with
  | false =>
    have hdb : (upload_recording env user req u1 u2 now db).2 = db := by
      simp [upload_recording, upload_recording_body, hc, hct, hst]
    rw [hdb]
    exact ⟨Or.inl rfl, hinv⟩
  | true =>
  cases hins : env.insertOk with
  | true =>
    cases hp : env.profileUpsertOk <;>
    · have hstor : (upload_recording env user req u1 u2 now db).2.storage
          = db.storage ++ [(uploadPath user req u1, req.content)] := by
        simp [upload_recording, upload_recording_body, hc, hct, hst, hins,
          hp, storagePut]
      have hrecs : (upload_recording env user req u1 u2 now db).2.recordings
          = db.recordings ++ [uploadRow env user req u1 u2 now] := by
        simp [upload_recording, upload_recording_body, hc, hct, hst, hins,
          hp, storagePut]
      refine ⟨Or.inr ⟨rfl, rfl, hrecs, ?_⟩, ?_⟩
      · rw [hstor]
        simp
      · intro r hr
        rw [hrecs] at hr
        rcases List.mem_append.mp hr with hold | hnew
        · obtain ⟨pc, hpc, hurl⟩ := hinv r hold
          refine ⟨pc, ?_, hurl⟩
          rw [hstor]
          exact List.mem_append_left _ hpc
        · refine ⟨(uploadPath user req u1, req.content), ?_, ?_⟩
          · rw [hstor]
            simp
          · rw [List.mem_singleton.mp hnew]
            rfl
  | false =>
    cases hp : env.profileUpsertOk <;> cases hrem : env.removeOk <;>
    · have hrecs : (upload_recording env user req u1 u2 now db).2.recordings
          = db.recordings := by
        simp [upload_recording, upload_recording_body, hc, hct, hst, hins,
          hp, hrem, storagePut, storageRemove]
      refine ⟨Or.inl hrecs, ?_⟩
      intro r hr
      rw [hrecs] at hr
      obtain ⟨pc, hpc, hurl⟩ := hinv r hr
      refine ⟨pc, ?_, hurl⟩
      first
      | -- removal succeeded: the filtered bucket still holds `pc`
        (have hstor : (upload_recording env user req u1 u2 now db).2.storage
            = (db.storage ++ [(uploadPath user req u1, req.content)]).filter
                (fun qc => qc.1 != uploadPath user req u1) := by
          simp [upload_recording, upload_recording_body, hc, hct, hst, hins,
            hp, hrem, storagePut, storageRemove]
         rw [hstor]
         have hne : pc.1 ≠ uploadPath user req u1 := by
           intro he
           exact hfresh pc.2 (by rw [← he]; simpa using hpc)
         exact List.mem_filter.mpr
           ⟨List.mem_append_left _ hpc, bne_iff_ne.mpr hne⟩)
      | -- removal failed and was swallowed: the bucket only grew
        (have hstor : (upload_recording env user req u1 u2 now db).2.storage
            = db.storage ++ [(uploadPath user req u1, req.content)] := by
          simp [upload_recording, upload_recording_body, hc, hct, hst, hins,
            hp, hrem, storagePut, storageRemove]
         rw [hstor]
         exact List.mem_append_left _ hpc)

/-- C2 witness: concrete successful upload starting from the empty
state; the new row's object is present afterwards. -/
theorem upload_preserves_row_object_invariant_witness :
    ((upload_recording envAllOk testUser reqWav "u1" "u2" 3 dbEmpty).2.recordings
        = dbEmpty.recordings
      ∨ (envAllOk.storageUploadOk = true ∧ envAllOk.insertOk = true
         ∧ (upload_recording envAllOk testUser reqWav "u1" "u2" 3
              dbEmpty).2.recordings
             = dbEmpty.recordings ++ [uploadRow envAllOk testUser reqWav "u1" "u2" 3]
         ∧ (uploadPath testUser reqWav "u1", reqWav.content)
             ∈ (upload_recording envAllOk testUser reqWav "u1" "u2" 3
                  dbEmpty).2.storage))
    ∧ ∀ r ∈ (upload_recording envAllOk testUser reqWav "u1" "u2" 3
          dbEmpty).2.recordings,
        refOk envAllOk
          (upload_recording envAllOk testUser reqWav "u1" "u2" 3 dbEmpty).2 r :=
  upload_preserves_row_object_invariant envAllOk testUser reqWav "u1" "u2" 3
    dbEmpty (by intro c; simp [dbEmpty]) (by intro r hr; simp [dbEmpty] at hr)

/-- Looking up the upserted key: the upsert merges the payload into the
first matching row, or appends the payload when no row matches. -/
theorem find?_upsertProfile_self (ps : List ProfileRow) (p : ProfileRow) :
    (upsertProfile ps p).find? (fun r => r.id == p.id)
      = some (match ps.find? (fun r => r.id == p.id) with
              | some old => mergeProfile old p
              | none => p) := by
  induction ps with
  | nil => simp [upsertProfile]
  | cons x xs ih =>
    by_cases hx : (x.id == p.id) = true
    · have hany : (x :: xs).any (fun r => r.id == p.id) = true := by
        simp [List.any_cons, hx]
      have hup : upsertProfile (x :: xs) p
          = (x :: xs).map
              (fun r => if r.id == p.id then mergeProfile r p else r) := by
        unfold upsertProfile
        rw [if_pos hany]
      rw [hup, List.map_cons]
      rw [if_pos hx, List.find?_cons, List.find?_cons]
      rw [show ((mergeProfile x p).id == p.id) = true from by
            simp [mergeProfile],
        hx]
    · have hx' : (x.id == p.id) = false := by simpa using hx
      by_cases hxs : xs.any (fun r => r.id == p.id) = true
      · have hany : (x :: xs).any (fun r => r.id == p.id) = true := by
          simp [List.any_cons, hxs]
        have hup : upsertProfile (x :: xs) p
            = (x :: xs).map
                (fun r => if r.id == p.id then mergeProfile r p else r) := by
          unfold upsertProfile
          rw [if_pos hany]
        have hux : upsertProfile xs p
            = xs.map (fun r => if r.id == p.id then mergeProfile r p else r) := by
          unfold upsertProfile
          rw [if_pos hxs]
        rw [hup, List.map_cons]
        rw [if_neg hx, List.find?_cons, List.find?_cons, hx']
        rw [← hux]
        exact ih
      · have hxs' : xs.any (fun r => r.id == p.id) = false := by
          simpa using hxs
        have hnone : xs.find? (fun r => r.id == p.id) = none := by
          rw [List.find?_eq_none]
          intro y hy
          simp [List.any_eq_false.mp hxs' y hy]
        have hany2 : ((x :: xs).any (fun r => r.id == p.id) = true) → False := by
          simp [List.any_cons, hx', hxs']
        have hup : upsertProfile (x :: xs) p = (x :: xs) ++ [p] := by
          unfold upsertProfile
          rw [if_neg hany2]
        rw [hup, List.find?_append, List.find?_cons, hx', hnone]
        simp

/-- Anatomy of an upserted table: each row is a merged old match, an
untouched non-match, or the appended payload. -/
theorem mem_upsertProfile (ps : List ProfileRow) (p x : ProfileRow)
    (h : x ∈ upsertProfile ps p) :
    (∃ r, r ∈ ps ∧ (r.id == p.id) = true ∧ x = mergeProfile r p)
    ∨ ((x.id == p.id) = false ∧ x ∈ ps)
    ∨ x = p := by
  unfold upsertProfile at h
  by_cases hany : ps.any (fun r => r.id == p.id) = true
  · rw [if_pos hany] at h
    rcases List.mem_map.mp h with ⟨r, hr, hfx⟩
    by_cases hrp : (r.id == p.id) = true
    · left
      refine ⟨r, hr, hrp, ?_⟩
      rw [← hfx]
      simp [hrp]
    · right; left
      have hxr : x = r := by
        rw [← hfx]
        simp [hrp]
      rw [hxr]
      exact ⟨by simpa using hrp, hr⟩
  · rw [if_neg hany] at h
    have hany' : ps.any (fun r => r.id == p.id) = false := by simpa using hany
    rcases List.mem_append.mp h with hmem | hp
    · right; left
      exact ⟨by simpa using List.any_eq_false.mp hany' x hmem, hmem⟩
    · right; right
      simpa using hp

/-- After an upsert, some row carries the payload's key. -/
theorem any_upsertProfile_self (ps : List ProfileRow) (p : ProfileRow) :
    (upsertProfile ps p).any (fun r => r.id == p.id) = true := by
  have h := find?_upsertProfile_self ps p
  rcases hf : ps.find? (fun r => r.id == p.id) with _ | old <;> rw [hf] at h
  · exact List.any_eq_true.mpr ⟨p, List.mem_of_find?_eq_some h, by simp⟩
  · exact List.any_eq_true.mpr
      ⟨mergeProfile old p, List.mem_of_find?_eq_some h, by simp [mergeProfile]⟩

/-- After upserting a payload, every row carrying the payload's key has
the payload's `email` and `full_name`. -/
theorem upsertProfile_fields (ps : List ProfileRow) (p : ProfileRow) :
    ∀ x ∈ upsertProfile ps p,
      (x.id == p.id) = true → x.email = p.email ∧ x.full_name = p.full_name := by
  intro x hx hxi
  rcases mem_upsertProfile ps p x hx with ⟨r, _, _, hxm⟩ | ⟨hne, _⟩ | hxp
  · rw [hxm]
    exact ⟨rfl, rfl⟩
  · rw [hxi] at hne
    cases hne
  · rw [hxp]
    exact ⟨rfl, rfl⟩

/-- Re-upserting a payload that differs from the previous one only in
`updated_at` rewrites exactly the `updated_at` of the matching rows. -/
theorem upsertProfile_update_only (ps1 : List ProfileRow) (p : ProfileRow)
    (t2 : Nat)
    (hany : ps1.any (fun r => r.id == p.id) = true)
    (hfields : ∀ x ∈ ps1, (x.id == p.id) = true →
        x.email = p.email ∧ x.full_name = p.full_name)
    (hca : p.created_at = none) (hua : p.updated_at = some t2) :
    upsertProfile ps1 p
      = ps1.map (fun x => if x.id == p.id then { x with updated_at := some t2 }
          else x) := by
  unfold upsertProfile
  rw [if_pos hany]
  apply List.map_congr_left
  intro x hx
  by_cases hxi : (x.id == p.id) = true
  · have hid : x.id = p.id := beq_iff_eq.mp hxi
    obtain ⟨he, hf⟩ := hfields x hx hxi
    simp [hxi, mergeProfile, Option.orElse, hca, hua, hid, he, hf]
  · simp [hxi]

/-- C8 counterexample: the create workflow sends `created_at` in its
upsert payload on every call, so a second call with identical fields at
a later time rewrites `created_at` from 10 to 20 — it is not written
only on first creation. -/
theorem create_profile_rewrites_created_at :
    ((findProfile (create_user_profile envAllOk reqProfile 10 dbEmpty).2
        "u1").map (fun r => r.created_at)) = some (some 10)
    ∧ ((findProfile (create_user_profile envAllOk reqProfile 20
          (create_user_profile envAllOk reqProfile 10 dbEmpty).2).2
        "u1").map (fun r => r.created_at)) = some (some 20)
    ∧ (some 20 : Option Nat) ≠ some 10 := by
  refine ⟨by decide, by decide, by decide⟩

/-- C8 (amended): the sync workflow never writes `created_at` (the
caller's existing row keeps it) and refreshes `updated_at`; a repeated
sync rewrites exactly the `updated_at` of the caller's rows; the create
workflow writes `created_at = now` on every call — first or repeat — so
only sync-style upserts leave `created_at` untouched. -/
theorem profile_timestamps_amended
    (env : Env) (user : Identity) (r0 : ProfileRow)
    (uid em fn : String) (t1 t2 t : Nat) (db : DB)
    (hconf : env.configured = true) (hup : env.profileUpsertOk = true)
    (hfind : findProfile db user.id = some r0) :
    findProfile (sync_user_profile env user t1 db).2 user.id
      = some { id := user.id, email := user.email,
               full_name := resolveFullName user,
               created_at := r0.created_at, updated_at := some t1 }
    ∧ (sync_user_profile env user t2
          (sync_user_profile env user t1 db).2).2.profiles
        = ((sync_user_profile env user t1 db).2).profiles.map
            (fun x => if x.id == user.id then { x with updated_at := some t2 }
              else x)
    ∧ findProfile (create_user_profile env
          { user_id := some uid, email := some em, full_name := some fn } t
          db).2 uid
        = some { id := uid, email := em, full_name := fn,
                 created_at := some t, updated_at := some t } := by
  have hsync1 : (sync_user_profile env user t1 db).2
      = { db with profiles := (upsertProfile db.profiles
          { id := user.id, email := user.email,
            full_name := resolveFullName user,
            created_at := none, updated_at := some t1 }) } := by
    simp [sync_user_profile, sync_user_profile_body, hconf, hup]
  refine ⟨?_, ?_, ?_⟩
  · rw [hsync1]
    have h := find?_upsertProfile_self db.profiles
      { id := user.id, email := user.email,
        full_name := resolveFullName user,
        created_at := none, updated_at := some t1 }
    unfold findProfile at hfind ⊢
    simp only [] at h ⊢
    rw [hfind] at h
    rw [h]
    simp [mergeProfile, Option.orElse]
  · have hsync2 : (sync_user_profile env user t2
        (sync_user_profile env user t1 db).2).2
        = { (sync_user_profile env user t1 db).2 with
            profiles := (upsertProfile
              ((sync_user_profile env user t1 db).2).profiles
              { id := user.id, email := user.email,
                full_name := resolveFullName user,
                created_at := none, updated_at := some t2 }) } := by
      simp [sync_user_profile, sync_user_profile_body, hconf, hup]
    rw [hsync2]
    simp only []
    rw [hsync1]
    simp only []
    exact upsertProfile_update_only _ _ t2
      (any_upsertProfile_self db.profiles _)
      (upsertProfile_fields db.profiles _) rfl rfl
  · have hcreate : (create_user_profile env
        { user_id := some uid, email := some em, full_name := some fn } t
        db).2
        = { db with profiles := (upsertProfile db.profiles
            { id := uid, email := em, full_name := fn,
              created_at := some t, updated_at := some t }) } := by
      simp [create_user_profile, create_user_profile_body, dictGet,
        hconf, hup]
    rw [hcreate]
    have h := find?_upsertProfile_self db.profiles
      { id := uid, email := em, full_name := fn,
        created_at := some t, updated_at := some t }
    unfold findProfile
    simp only [] at h ⊢
    cases hf : db.profiles.find? (fun r => r.id == uid) with
    | none =>
      rw [hf] at h
      rw [h]
    | some old =>
      rw [hf] at h
      rw [h]
      simp [mergeProfile, Option.orElse]

/-- C8 (amended) witness: concrete run on a state holding an old profile
row for the test user. -/
theorem profile_timestamps_amended_witness :
    findProfile (sync_user_profile envAllOk testUser 5 dbProf).2 testUser.id
      = some { id := testUser.id, email := testUser.email,
               full_name := resolveFullName testUser,
               created_at := profRow0.created_at, updated_at := some 5 }
    ∧ (sync_user_profile envAllOk testUser 6
          (sync_user_profile envAllOk testUser 5 dbProf).2).2.profiles
        = ((sync_user_profile envAllOk testUser 5 dbProf).2).profiles.map
            (fun x => if x.id == testUser.id then { x with updated_at := some 6 }
              else x)
    ∧ findProfile (create_user_profile envAllOk
          { user_id := some "u9", email := some "e9", full_name := some "n9" } 7
          dbProf).2 "u9"
        = some { id := "u9", email := "e9", full_name := "n9",
                 created_at := some 7, updated_at := some 7 } :=
  profile_timestamps_amended envAllOk testUser profRow0 "u9" "e9" "n9" 5 6 7
    dbProf rfl rfl (by decide)

end VoiceBackend
